import Mathlib

/-!
Formal model of the slide presentation engine (app.js) and of the manifest
generator (the grid sizing heuristic), as a shallow embedding: the mutable
fields of the SlidePresentation object become a state structure, every
operation becomes a pure state transformer, and each call to Math.random()
becomes an explicit rational parameter in [0, 1).  Persistence writes are
counted by an instrumentation field `writes`.  All numeric slide arithmetic
is over the rationals.
-/

namespace Praesi

/-- CONFIG.THROW_DISTANCE_MIN from app.js. -/
def THROW_DISTANCE_MIN : ℚ := 5/2

/-- CONFIG.THROW_DISTANCE_RANGE from app.js. -/
def THROW_DISTANCE_RANGE : ℚ := 1/2

/-- CONFIG.THROW_ROTATION_RANGE from app.js. -/
def THROW_ROTATION_RANGE : ℚ := 720

/-- CONFIG.NEXT_SLIDE_ROTATION_RANGE from app.js. -/
def NEXT_SLIDE_ROTATION_RANGE : ℚ := 10

/-- CONFIG.NEXT_SLIDE_OFFSET_RANGE from app.js. -/
def NEXT_SLIDE_OFFSET_RANGE : ℚ := 2/5

/-- CONFIG.NEXT_SLIDE_BRIGHTNESS from app.js. -/
def NEXT_SLIDE_BRIGHTNESS : ℚ := 3/5

/-- CONFIG.MAX_STACK_SIZE from app.js. -/
def MAX_STACK_SIZE : Nat := 5

/-- CONFIG.STACK_DEPTH_OFFSET from app.js. -/
def STACK_DEPTH_OFFSET : ℚ := 1/20

/-- CONFIG.STACK_SCALE_INCREMENT from app.js. -/
def STACK_SCALE_INCREMENT : ℚ := 1/100

/-- CONFIG.STACK_BASE_SCALE from app.js. -/
def STACK_BASE_SCALE : ℚ := 19/20

/-- CONFIG.STACK_POSITION_OFFSET from app.js. -/
def STACK_POSITION_OFFSET : ℚ := 3

/-- The mutable fields of the SlidePresentation object that the deck model,
animation controller and stack compositor read and write.  `writes` counts
calls of saveProgress (an instrumentation field, not part of the source
state). -/
structure AppState where
  slides : List String
  currentSlideIndex : Nat
  isAnimating : Bool
  animationProgress : ℚ
  throwDirection : ℚ × ℚ
  throwRotation : ℚ
  nextSlideRotation : ℚ
  nextSlideOffsetX : ℚ
  nextSlideOffsetY : ℚ
  writes : Nat
  deriving DecidableEq

/-- The ease-out-cubic curve used by animateThrow, animateSlideIn and both
render paths: 1 - (1 - p)^3. -/
def eased (p : ℚ) : ℚ := 1 - (1 - p)^3

/-- Brightness interpolation used during slide-in:
NEXT_SLIDE_BRIGHTNESS + (1 - NEXT_SLIDE_BRIGHTNESS) * eased p. -/
def brightnessAt (p : ℚ) : ℚ :=
  NEXT_SLIDE_BRIGHTNESS + (1 - NEXT_SLIDE_BRIGHTNESS) * eased p

/-- The throw distance drawn in throwSlide:
THROW_DISTANCE_MIN + random * THROW_DISTANCE_RANGE, with the random draw
passed in as `r`. -/
def throwDistance (r : ℚ) : ℚ := THROW_DISTANCE_MIN + r * THROW_DISTANCE_RANGE

/-- generateNextSlidePosition from app.js: draws a fresh NextSlotPose from
three random values r1 r2 r3 (each modelling one Math.random() call). -/
def generateNextSlidePosition (r1 r2 r3 : ℚ) (st : AppState) : AppState :=
  { st with
    nextSlideRotation := (r1 - 1/2) * NEXT_SLIDE_ROTATION_RANGE,
    nextSlideOffsetX := (r2 - 1/2) * NEXT_SLIDE_OFFSET_RANGE,
    nextSlideOffsetY := (r3 - 1/2) * NEXT_SLIDE_OFFSET_RANGE }

/-- throwSlide from app.js.  The cosine and sine of the random throw angle
are passed in as `c` and `s` (constrained by c^2 + s^2 = 1 in the theorems),
the distance draw as `r` and the rotation draw as `rot`. -/
def throwSlide (c s r rot : ℚ) (st : AppState) : AppState :=
  { st with
    isAnimating := true,
    animationProgress := 0,
    throwDirection := (c * throwDistance r, s * throwDistance r),
    throwRotation := (rot - 1/2) * THROW_ROTATION_RANGE }

/-- handleInteraction from setupEventListeners in app.js: a click or touch
starts a throw only when isAnimating is false, otherwise the state is left
untouched. -/
def handleInteraction (c s r rot : ℚ) (st : AppState) : AppState :=
  if st.isAnimating then st else throwSlide c s r rot st

/-- The cursor step of onSlideThrowComplete: increment, then wrap to 0 when
the incremented cursor reaches the deck length. -/
def advanceCursor (n cursor : Nat) : Nat :=
  if n ≤ cursor + 1 then 0 else cursor + 1

/-- saveProgress from app.js: one persistence write of the current cursor,
modelled by incrementing the write counter. -/
def saveProgress (st : AppState) : AppState := { st with writes := st.writes + 1 }

/-- The synchronous prefix of onSlideThrowComplete, up to the awaited
loadCurrentSlides call: clear isAnimating, advance the cursor with wrap, and
persist.  The old NextSlotPose is captured into locals by the source at this
point; the pose fields themselves are not modified here. -/
def onThrowCompleteSync (st : AppState) : AppState :=
  saveProgress
    { st with
      isAnimating := false,
      currentSlideIndex := advanceCursor st.slides.length st.currentSlideIndex }

/-- The remainder of onSlideThrowComplete after the awaited texture loads:
restore the captured NextSlotPose, zero the throw direction and rotation to
signal slide-in mode, and restart the animation clock. -/
def onThrowCompleteResume (oldRot oldX oldY : ℚ) (st : AppState) : AppState :=
  { st with
    nextSlideRotation := oldRot,
    nextSlideOffsetX := oldX,
    nextSlideOffsetY := oldY,
    throwDirection := (0, 0),
    throwRotation := 0,
    isAnimating := true,
    animationProgress := 0 }

/-- onSlideThrowComplete from app.js as one atomic step: the synchronous
prefix followed by the resume, with the pose captured before the prefix. -/
def onSlideThrowComplete (st : AppState) : AppState :=
  onThrowCompleteResume st.nextSlideRotation st.nextSlideOffsetX st.nextSlideOffsetY
    (onThrowCompleteSync st)

/-- One animation frame of animateSlideIn with progress strictly below 1:
only the progress field changes. -/
def slideInFrame (p : ℚ) (st : AppState) : AppState := { st with animationProgress := p }

/-- The completion branch of animateSlideIn (progress reached 1): clear
isAnimating and draw a fresh NextSlotPose. -/
def slideInComplete (r1 r2 r3 : ℚ) (st : AppState) : AppState :=
  generateNextSlidePosition r1 r2 r3 { st with isAnimating := false, animationProgress := 1 }

/-- The per-quad draw parameters handed to renderSlide in app.js. -/
structure RenderParams where
  offsetX : ℚ
  offsetY : ℚ
  scale : ℚ
  rotation : ℚ
  depth : ℚ
  opacity : ℚ
  deriving DecidableEq

/-- getRemainingSlides from app.js: slides.length - currentSlideIndex. -/
def stackRemaining (st : AppState) : Nat := st.slides.length - st.currentSlideIndex

/-- The visible stack size computed at the top of renderStack:
min(MAX_STACK_SIZE, remaining - 1). -/
def stackSizeOf (st : AppState) : Nat := min MAX_STACK_SIZE (stackRemaining st - 1)

/-- Stack slot depth from renderStack: -0.5 - i * STACK_DEPTH_OFFSET. -/
def stackDepth (i : Nat) : ℚ := -(1/2) - (i : ℚ) * STACK_DEPTH_OFFSET

/-- Stack slot lateral offset from renderStack:
(stackSize - i) * STACK_POSITION_OFFSET. -/
def stackOffset (stackSize i : Nat) : ℚ :=
  ((stackSize - i : Nat) : ℚ) * STACK_POSITION_OFFSET

/-- Stack slot scale from renderStack:
STACK_BASE_SCALE + i * STACK_SCALE_INCREMENT. -/
def stackScale (i : Nat) : ℚ := STACK_BASE_SCALE + (i : ℚ) * STACK_SCALE_INCREMENT

/-- The visibility computation of renderStack: opacity drops to 0 when
remaining <= MAX_STACK_SIZE and the slot position stackSize - i is at least
remaining - 1, and stays 1 otherwise. -/
def stackBaseOpacity (remaining stackSize i : Nat) : ℚ :=
  if remaining ≤ MAX_STACK_SIZE ∧ remaining - 1 ≤ stackSize - i then 0 else 1

/-- renderCurrentSlide from app.js as a pure function of the state: the
throw branch is taken while animating with a nonzero throw direction, the
slide-in branch while animating with a zero direction, and the neutral pose
otherwise. -/
def renderCurrentSlide (st : AppState) : RenderParams :=
  if st.isAnimating then
    if st.throwDirection.1 ≠ 0 ∨ st.throwDirection.2 ≠ 0 then
      { offsetX := st.throwDirection.1 * eased st.animationProgress,
        offsetY := st.throwDirection.2 * eased st.animationProgress,
        scale := 1,
        rotation := st.throwRotation * eased st.animationProgress,
        depth := 0,
        opacity := 1 - st.animationProgress }
    else
      { offsetX := st.nextSlideOffsetX * (1 - eased st.animationProgress),
        offsetY := st.nextSlideOffsetY * (1 - eased st.animationProgress),
        scale := 1,
        rotation := st.nextSlideRotation * (1 - eased st.animationProgress),
        depth := 0,
        opacity := brightnessAt st.animationProgress }
  else
    { offsetX := 0, offsetY := 0, scale := 1, rotation := 0, depth := 0, opacity := 1 }

/-- The body of the renderStack loop for slot index i (slots are rendered
for 0 <= i < stackSize): geometry from stackDepth, stackOffset and
stackScale, visibility from stackBaseOpacity, and the special pose handling
for slot 0 (NextSlotPose, darkening, and the slide-in interpolation chosen
by the zero test on throwDirection). -/
def renderStackSlot (st : AppState) (i : Nat) : RenderParams :=
  let remaining := stackRemaining st
  let stackSize := stackSizeOf st
  let base := stackBaseOpacity remaining stackSize i
  if i = 0 then
    if st.isAnimating then
      if st.throwDirection.1 = 0 ∧ st.throwDirection.2 = 0 then
        { offsetX := st.nextSlideOffsetX * (1 - eased st.animationProgress),
          offsetY := st.nextSlideOffsetY * (1 - eased st.animationProgress),
          scale := stackScale 0,
          rotation := st.nextSlideRotation * (1 - eased st.animationProgress),
          depth := stackDepth 0,
          opacity := base * brightnessAt st.animationProgress }
      else
        { offsetX := st.nextSlideOffsetX,
          offsetY := st.nextSlideOffsetY,
          scale := stackScale 0,
          rotation := st.nextSlideRotation,
          depth := stackDepth 0,
          opacity := base * NEXT_SLIDE_BRIGHTNESS }
    else
      { offsetX := st.nextSlideOffsetX,
        offsetY := st.nextSlideOffsetY,
        scale := stackScale 0,
        rotation := st.nextSlideRotation,
        depth := stackDepth 0,
        opacity := base * NEXT_SLIDE_BRIGHTNESS }
  else
    { offsetX := stackOffset stackSize i,
      offsetY := -(stackOffset stackSize i),
      scale := stackScale i,
      rotation := 0,
      depth := stackDepth i,
      opacity := base }

/-- A decoded texture: the GPU resource data loadTexture stores, keyed by
path, with the decoded pixel dimensions. -/
structure TexData where
  width : Nat
  height : Nat
  deriving DecidableEq

/-- The texture cache state: the path-keyed cache map and an instrumentation
counter of underlying fetch-decode-upload operations. -/
structure TexCacheState where
  cache : List (String × TexData)
  fetches : Nat
  deriving DecidableEq

/-- loadTexture from app.js: a cache hit returns the stored record without
touching the state; a miss fetches and decodes (modelled by the `decode`
oracle and counted in `fetches`), stores the record and returns it. -/
def loadTexture (decode : String → TexData) (path : String) (st : TexCacheState) :
    TexData × TexCacheState :=
  match st.cache.lookup path with
  | some d => (d, st)
  | none =>
      let d := decode path
      (d, { cache := (path, d) :: st.cache, fetches := st.fetches + 1 })

/-- The possible outcomes of reading the progress cookie at startup: the
cookie is absent, its value fails JSON.parse, or it parses to a record whose
current field is a number (some c) or missing / not a number (none). -/
inductive JsonCookie where
  | absent
  | unparsable
  | record (current : Option Int)
  deriving DecidableEq

/-- loadProgress from app.js for a deck of length n.  The result is the
value of currentSlideIndex after the call: `none` models the JavaScript
value undefined (assigned when the parsed record has no numeric current
field, in which case the comparison with the deck length is false and no
reset happens). -/
def loadProgress (n : Nat) : JsonCookie → Option Int
  | JsonCookie.absent => some 0
  | JsonCookie.unparsable => some 0
  | JsonCookie.record none => none
  | JsonCookie.record (some c) => if (n : Int) ≤ c then some 0 else some c

/-- A grid dimension pair from the manifest generator. -/
structure GridDims where
  columns : Nat
  rows : Nat
  deriving DecidableEq

/-- calculateGridDimensions from the manifest generator, with Math.ceil of
the floating point quotient imageCount / 4 rendered as the rational ceiling. -/
def calculateGridDimensions (imageCount : Nat) : GridDims :=
  if imageCount ≤ 1 then ⟨1, 1⟩
  else if imageCount ≤ 4 then ⟨2, 2⟩
  else if imageCount ≤ 6 then ⟨3, 2⟩
  else if imageCount ≤ 9 then ⟨3, 3⟩
  else if imageCount ≤ 12 then ⟨4, 3⟩
  else ⟨4, Nat.ceil ((imageCount : ℚ) / 4)⟩

/-- Modelled from the spec: the grid sizing table of section 6, with the
final row written with the integer ceiling (c + 3) / 4.  Used only to be
compared against calculateGridDimensions. -/
def gridDimensionsSpec (c : Nat) : GridDims :=
  if c ≤ 1 then ⟨1, 1⟩
  else if c ≤ 4 then ⟨2, 2⟩
  else if c ≤ 6 then ⟨3, 2⟩
  else if c ≤ 9 then ⟨3, 3⟩
  else if c ≤ 12 then ⟨4, 3⟩
  else ⟨4, (c + 3) / 4⟩

/-- A concrete idle state over a three slide deck, used by witnesses. -/
def stIdle : AppState :=
  { slides := ["a", "b", "c"],
    currentSlideIndex := 0,
    isAnimating := false,
    animationProgress := 0,
    throwDirection := (0, 0),
    throwRotation := 0,
    nextSlideRotation := 1,
    nextSlideOffsetX := 1/10,
    nextSlideOffsetY := 1/10,
    writes := 0 }

/-- The state right after a throw starts from stIdle. -/
def stThrowing : AppState := throwSlide 1 0 0 1 stIdle

/-- The state midway through the throw animation of stThrowing. -/
def stThrowHalf : AppState := { stThrowing with animationProgress := 1/2 }

/-- The state during the awaited texture load inside onSlideThrowComplete:
the throw animation has completed, the slide-in has not started, and
isAnimating has been cleared by the completion handler. -/
def stMidTransition : AppState := onThrowCompleteSync stThrowing

/-- A concrete idle state near the tail of a four slide deck: cursor 1, so
three slides remain and the visible stack has two slots. -/
def stTail : AppState :=
  { slides := ["a", "b", "c", "d"],
    currentSlideIndex := 1,
    isAnimating := false,
    animationProgress := 0,
    throwDirection := (0, 0),
    throwRotation := 0,
    nextSlideRotation := 1,
    nextSlideOffsetX := 1/10,
    nextSlideOffsetY := 1/10,
    writes := 0 }

/-- Projection lemma: onSlideThrowComplete never touches the slide list. -/
lemma onSlideThrowComplete_slides (st : AppState) :
    (onSlideThrowComplete st).slides = st.slides := rfl

/-- Projection lemma: the cursor after onSlideThrowComplete is the wrapped
increment of the cursor before it. -/
lemma onSlideThrowComplete_cursor (st : AppState) :
    (onSlideThrowComplete st).currentSlideIndex =
      advanceCursor st.slides.length st.currentSlideIndex := rfl

/-- Projection lemma: onSlideThrowComplete performs exactly one persistence
write. -/
lemma onSlideThrowComplete_writes (st : AppState) :
    (onSlideThrowComplete st).writes = st.writes + 1 := rfl

/-- Iterating onSlideThrowComplete keeps the slide list fixed and drives the
cursor by the pure advanceCursor map. -/
lemma onSlideThrowComplete_iterate (st : AppState) (k : Nat) :
    (onSlideThrowComplete^[k] st).slides = st.slides ∧
    (onSlideThrowComplete^[k] st).currentSlideIndex =
      (advanceCursor st.slides.length)^[k] st.currentSlideIndex := by
  induction k with
  | zero => exact ⟨rfl, rfl⟩
  | succ k ih =>
      rw [Function.iterate_succ_apply', Function.iterate_succ_apply']
      refine ⟨?_, ?_⟩
      · rw [onSlideThrowComplete_slides, ih.1]
      · rw [onSlideThrowComplete_cursor, ih.1, ih.2]

/-- Iterating the wrapped increment k <= n times from cursor 0 lands on
k mod n. -/
lemma advanceCursor_iterate (n : Nat) :
    ∀ k, k ≤ n → (advanceCursor n)^[k] 0 = k % n := by
  intro k
  induction k with
  | zero => intro _; simp
  | succ k ih =>
      intro hk
      rw [Function.iterate_succ_apply', ih (Nat.le_of_succ_le hk)]
      have hkn : k < n := hk
      rw [Nat.mod_eq_of_lt hkn]
      unfold advanceCursor
      split_ifs with h
      · have he : k + 1 = n := by omega
        rw [he, Nat.mod_self]
      · rw [Nat.mod_eq_of_lt (by omega)]

/-- The rational ceiling of c / 4 agrees with the integer formula
(c + 3) / 4. -/
lemma ceil_quarter (c : Nat) : Nat.ceil ((c : ℚ) / 4) = (c + 3) / 4 := by
  rcases Nat.eq_zero_or_pos c with h0 | h0
  · subst h0; simp
  · have h1 : 1 ≤ (c + 3) / 4 := by omega
    rw [Nat.ceil_eq_iff (by omega)]
    constructor
    · obtain ⟨k, hk⟩ : ∃ k, (c + 3) / 4 = k + 1 := ⟨(c + 3) / 4 - 1, by omega⟩
      rw [hk, Nat.add_sub_cancel]
      rw [lt_div_iff₀ (by norm_num : (0:ℚ) < 4)]
      have h4 : 4 * k < c := by omega
      have h4q : ((4 * k : Nat) : ℚ) < ((c : Nat) : ℚ) := by exact_mod_cast h4
      push_cast at h4q
      linarith
    · rw [div_le_iff₀ (by norm_num : (0:ℚ) < 4)]
      have h5 : c ≤ 4 * ((c + 3) / 4) := by omega
      have h5q : ((c : Nat) : ℚ) ≤ ((4 * ((c + 3) / 4) : Nat) : ℚ) := by exact_mod_cast h5
      push_cast at h5q
      linarith

/-- C1: For an ordered deck of size N with cursor in [0, N), every call of
onSlideThrowComplete (the advance operation) increments the cursor, wrapping
to 0 exactly when the incremented cursor reaches N, performs exactly one
persistence write, and leaves the item order untouched; iterating it N times
from a state with cursor 0 returns the cursor to 0 with the slide list
unchanged. -/
theorem advance_wraps_and_persists (st st0 : AppState)
    (h : st.currentSlideIndex < st.slides.length)
    (h0 : st0.currentSlideIndex = 0) (hn : 0 < st0.slides.length) :
    ((onSlideThrowComplete st).currentSlideIndex =
      if st.currentSlideIndex + 1 = st.slides.length then 0 else st.currentSlideIndex + 1)
    ∧ (onSlideThrowComplete st).writes = st.writes + 1
    ∧ (onSlideThrowComplete st).slides = st.slides
    ∧ (onSlideThrowComplete^[st0.slides.length] st0).currentSlideIndex = 0
    ∧ (onSlideThrowComplete^[st0.slides.length] st0).slides = st0.slides := by
  have hiter := onSlideThrowComplete_iterate st0 st0.slides.length
  refine ⟨?_, onSlideThrowComplete_writes st, onSlideThrowComplete_slides st, ?_, hiter.1⟩
  · rw [onSlideThrowComplete_cursor]
    unfold advanceCursor
    split_ifs with h1 h2 h2 <;> omega
  · rw [hiter.2, h0,
      advanceCursor_iterate st0.slides.length st0.slides.length le_rfl, Nat.mod_self]

/-- Witness for C1 at the concrete three slide idle state. -/
theorem advance_wraps_and_persists_witness :
    (stIdle.currentSlideIndex < stIdle.slides.length
      ∧ stIdle.currentSlideIndex = 0 ∧ 0 < stIdle.slides.length)
    ∧ (((onSlideThrowComplete stIdle).currentSlideIndex =
        if stIdle.currentSlideIndex + 1 = stIdle.slides.length then 0
        else stIdle.currentSlideIndex + 1)
      ∧ (onSlideThrowComplete stIdle).writes = stIdle.writes + 1
      ∧ (onSlideThrowComplete stIdle).slides = stIdle.slides
      ∧ (onSlideThrowComplete^[stIdle.slides.length] stIdle).currentSlideIndex = 0
      ∧ (onSlideThrowComplete^[stIdle.slides.length] stIdle).slides = stIdle.slides) :=
  ⟨⟨by decide, by decide, by decide⟩,
    advance_wraps_and_persists stIdle stIdle (by decide) (by decide) (by decide)⟩

/-- C2 counterexample: stMidTransition is the state during the awaited
texture load of onSlideThrowComplete, strictly between the start of a throw
and the completion of the subsequent slide-in, yet an interaction arriving
there is not dropped: isAnimating is false at that point, so the handler
starts a second throw and changes the state. -/
theorem interaction_during_load_window_not_dropped :
    stMidTransition.isAnimating = false
    ∧ handleInteraction 1 0 0 1 stMidTransition ≠ stMidTransition
    ∧ (handleInteraction 1 0 0 1 stMidTransition).isAnimating = true := by
  decide

/-- C2 amended: an interaction is dropped exactly when the isAnimating flag
is set at its arrival, which holds during the throw animation and the
slide-in animation but not during the awaited texture load inside the
completion handler; when the flag is clear the interaction starts a throw. -/
theorem interaction_dropped_iff_animating (c s r rot : ℚ) (st : AppState) :
    (st.isAnimating = true → handleInteraction c s r rot st = st)
    ∧ (st.isAnimating = false → handleInteraction c s r rot st = throwSlide c s r rot st) := by
  constructor <;> intro h <;> simp [handleInteraction, h]

/-- Witness for the amended C2 at a concrete throwing state. -/
theorem interaction_dropped_iff_animating_witness :
    stThrowing.isAnimating = true ∧ handleInteraction 1 0 0 1 stThrowing = stThrowing :=
  ⟨by decide, (interaction_dropped_iff_animating 1 0 0 1 stThrowing).1 (by decide)⟩

/-- C9: calculateGridDimensions agrees with the grid table of the spec on
every image count, and in particular maps 5 to (3, 2), 9 to (3, 3) and 13
to (4, 4). -/
theorem grid_dimensions_match_spec :
    (∀ c : Nat, calculateGridDimensions c = gridDimensionsSpec c)
    ∧ calculateGridDimensions 5 = ⟨3, 2⟩
    ∧ calculateGridDimensions 9 = ⟨3, 3⟩
    ∧ calculateGridDimensions 13 = ⟨4, 4⟩ := by
  have hmain : ∀ c : Nat, calculateGridDimensions c = gridDimensionsSpec c := by
    intro c
    unfold calculateGridDimensions gridDimensionsSpec
    split_ifs
    any_goals rfl
    rw [ceil_quarter c]
  refine ⟨hmain, ?_, ?_, ?_⟩
  · rw [hmain 5]; decide
  · rw [hmain 9]; decide
  · rw [hmain 13]; decide

/-- The ease-out-cubic curve starts at 0. -/
lemma eased_zero : eased 0 = 0 := by norm_num [eased]

/-- The throw branch of renderCurrentSlide fades linearly in raw progress. -/
lemma renderCurrentSlide_throw_opacity (st : AppState) (ha : st.isAnimating = true)
    (hnz : st.throwDirection.1 ≠ 0 ∨ st.throwDirection.2 ≠ 0) :
    (renderCurrentSlide st).opacity = 1 - st.animationProgress := by
  simp [renderCurrentSlide, ha, hnz]

/-- During a throw, stack slot 0 keeps its NextSlotPose offset. -/
lemma renderStackSlot_zero_throw (st : AppState) (ha : st.isAnimating = true)
    (hnz : ¬(st.throwDirection.1 = 0 ∧ st.throwDirection.2 = 0)) :
    (renderStackSlot st 0).offsetX = st.nextSlideOffsetX := by
  simp [renderStackSlot, ha, hnz]

/-- C3: when a throw completes, the NextSlotPose the next slide carried while
idle (the pose stack slot 0 renders outside transitions) survives
onSlideThrowComplete unchanged, the machine enters slide-in mode (animating,
zero throw direction, progress 0), the newly promoted current item starts
the slide-in from exactly that pose, slide-in frames below progress 1 never
touch the pose, and only the completion step draws a fresh NextSlotPose. -/
theorem slidein_pose_capture (st : AppState) (c s r rot p r1 r2 r3 : ℚ)
    (h : st.isAnimating = false) :
    ((renderStackSlot st 0).offsetX = st.nextSlideOffsetX
      ∧ (renderStackSlot st 0).offsetY = st.nextSlideOffsetY
      ∧ (renderStackSlot st 0).rotation = st.nextSlideRotation)
    ∧ ((onSlideThrowComplete (throwSlide c s r rot st)).nextSlideRotation = st.nextSlideRotation
      ∧ (onSlideThrowComplete (throwSlide c s r rot st)).nextSlideOffsetX = st.nextSlideOffsetX
      ∧ (onSlideThrowComplete (throwSlide c s r rot st)).nextSlideOffsetY = st.nextSlideOffsetY)
    ∧ ((onSlideThrowComplete (throwSlide c s r rot st)).isAnimating = true
      ∧ (onSlideThrowComplete (throwSlide c s r rot st)).throwDirection = (0, 0)
      ∧ (onSlideThrowComplete (throwSlide c s r rot st)).animationProgress = 0)
    ∧ ((renderCurrentSlide (onSlideThrowComplete (throwSlide c s r rot st))).offsetX
        = st.nextSlideOffsetX
      ∧ (renderCurrentSlide (onSlideThrowComplete (throwSlide c s r rot st))).offsetY
        = st.nextSlideOffsetY
      ∧ (renderCurrentSlide (onSlideThrowComplete (throwSlide c s r rot st))).rotation
        = st.nextSlideRotation)
    ∧ ((slideInFrame p (onSlideThrowComplete (throwSlide c s r rot st))).nextSlideRotation
        = st.nextSlideRotation
      ∧ (slideInFrame p (onSlideThrowComplete (throwSlide c s r rot st))).nextSlideOffsetX
        = st.nextSlideOffsetX
      ∧ (slideInFrame p (onSlideThrowComplete (throwSlide c s r rot st))).nextSlideOffsetY
        = st.nextSlideOffsetY)
    ∧ ((slideInComplete r1 r2 r3 (onSlideThrowComplete (throwSlide c s r rot st))).nextSlideRotation
        = (r1 - 1/2) * NEXT_SLIDE_ROTATION_RANGE
      ∧ (slideInComplete r1 r2 r3 (onSlideThrowComplete (throwSlide c s r rot st))).nextSlideOffsetX
        = (r2 - 1/2) * NEXT_SLIDE_OFFSET_RANGE) := by
  refine ⟨?_, ⟨rfl, rfl, rfl⟩, ⟨rfl, rfl, rfl⟩, ?_, ⟨rfl, rfl, rfl⟩, rfl, rfl⟩
  · simp [renderStackSlot, h]
  · simp [renderCurrentSlide, onSlideThrowComplete, onThrowCompleteResume,
      onThrowCompleteSync, saveProgress, throwSlide, eased_zero]

/-- Witness for C3 at the concrete idle state. -/
theorem slidein_pose_capture_witness :
    stIdle.isAnimating = false
    ∧ (((renderStackSlot stIdle 0).offsetX = stIdle.nextSlideOffsetX
        ∧ (renderStackSlot stIdle 0).offsetY = stIdle.nextSlideOffsetY
        ∧ (renderStackSlot stIdle 0).rotation = stIdle.nextSlideRotation)
      ∧ ((onSlideThrowComplete (throwSlide 1 0 0 1 stIdle)).nextSlideRotation
          = stIdle.nextSlideRotation
        ∧ (onSlideThrowComplete (throwSlide 1 0 0 1 stIdle)).nextSlideOffsetX
          = stIdle.nextSlideOffsetX
        ∧ (onSlideThrowComplete (throwSlide 1 0 0 1 stIdle)).nextSlideOffsetY
          = stIdle.nextSlideOffsetY)
      ∧ ((onSlideThrowComplete (throwSlide 1 0 0 1 stIdle)).isAnimating = true
        ∧ (onSlideThrowComplete (throwSlide 1 0 0 1 stIdle)).throwDirection = (0, 0)
        ∧ (onSlideThrowComplete (throwSlide 1 0 0 1 stIdle)).animationProgress = 0)
      ∧ ((renderCurrentSlide (onSlideThrowComplete (throwSlide 1 0 0 1 stIdle))).offsetX
          = stIdle.nextSlideOffsetX
        ∧ (renderCurrentSlide (onSlideThrowComplete (throwSlide 1 0 0 1 stIdle))).offsetY
          = stIdle.nextSlideOffsetY
        ∧ (renderCurrentSlide (onSlideThrowComplete (throwSlide 1 0 0 1 stIdle))).rotation
          = stIdle.nextSlideRotation)
      ∧ ((slideInFrame (1/2) (onSlideThrowComplete (throwSlide 1 0 0 1 stIdle))).nextSlideRotation
          = stIdle.nextSlideRotation
        ∧ (slideInFrame (1/2) (onSlideThrowComplete (throwSlide 1 0 0 1 stIdle))).nextSlideOffsetX
          = stIdle.nextSlideOffsetX
        ∧ (slideInFrame (1/2) (onSlideThrowComplete (throwSlide 1 0 0 1 stIdle))).nextSlideOffsetY
          = stIdle.nextSlideOffsetY)
      ∧ ((slideInComplete 0 0 0 (onSlideThrowComplete (throwSlide 1 0 0 1 stIdle))).nextSlideRotation
          = (0 - 1/2) * NEXT_SLIDE_ROTATION_RANGE
        ∧ (slideInComplete 0 0 0 (onSlideThrowComplete (throwSlide 1 0 0 1 stIdle))).nextSlideOffsetX
          = (0 - 1/2) * NEXT_SLIDE_OFFSET_RANGE)) :=
  ⟨by decide, slidein_pose_capture stIdle 1 0 0 1 (1/2) 0 0 0 (by decide)⟩

/-- C4 counterexample: in the stack compositor the nearer slot 0 has scale
19/20 and slot 1 has scale 24/25, so for the pair of slots 0 < 1 the nearer
slot is rendered strictly smaller, not larger as the claim states. -/
theorem nearer_slot_not_larger :
    stackScale 0 < stackScale 1 ∧ ¬ stackScale 1 < stackScale 0 := by
  norm_num [stackScale, STACK_BASE_SCALE, STACK_SCALE_INCREMENT]

/-- C4 amended: for slots i < j of a visible stack of size stackSize, depth
recedes strictly as i increases, the lateral offset (stackSize - i) * 3
strictly decreases as i increases (equivalently, increases with the stack
position stackSize - i), and scale strictly increases with i, so the nearer
slot i is rendered very slightly smaller than slot j. -/
theorem stack_geometry (i j stackSize : Nat) (hij : i < j) (hjK : j < stackSize) :
    stackDepth j < stackDepth i
    ∧ stackOffset stackSize j < stackOffset stackSize i
    ∧ stackScale i < stackScale j := by
  have hq : (i : ℚ) < (j : ℚ) := by exact_mod_cast hij
  refine ⟨?_, ?_, ?_⟩
  · unfold stackDepth STACK_DEPTH_OFFSET
    linarith
  · unfold stackOffset STACK_POSITION_OFFSET
    have hn : stackSize - j < stackSize - i := by omega
    have hnq : ((stackSize - j : Nat) : ℚ) < ((stackSize - i : Nat) : ℚ) := by exact_mod_cast hn
    linarith
  · unfold stackScale STACK_BASE_SCALE STACK_SCALE_INCREMENT
    linarith

/-- Witness for the amended C4 at slots 0 and 1 of a stack of size 2. -/
theorem stack_geometry_witness :
    (0 < 1 ∧ 1 < 2)
    ∧ (stackDepth 1 < stackDepth 0
      ∧ stackOffset 2 1 < stackOffset 2 0
      ∧ stackScale 0 < stackScale 1) :=
  ⟨⟨by decide, by decide⟩, stack_geometry 0 1 2 (by decide) (by decide)⟩

/-- C5 counterexample: in stTail (four slides, cursor 1) three slides
remain, so slot 0 shows the slide at index 2, strictly before the last
slide at index 3, yet it is rendered at opacity zero; slot 1 shows the last
slide itself and stays visible.  The set of faded slots is therefore not
the set of slots whose position lies at or beyond the last item. -/
theorem stack_fade_hits_nearest_slot :
    (renderStackSlot stTail 0).opacity = 0
    ∧ stTail.currentSlideIndex + 1 + 0 < stTail.slides.length - 1
    ∧ (renderStackSlot stTail 1).opacity ≠ 0
    ∧ stTail.currentSlideIndex + 1 + 1 = stTail.slides.length - 1 := by
  refine ⟨?_, by decide, ?_, by decide⟩
  · norm_num [renderStackSlot, stackBaseOpacity, stackRemaining, stackSizeOf, stTail,
      MAX_STACK_SIZE, NEXT_SLIDE_BRIGHTNESS]
  · norm_num [renderStackSlot, stackBaseOpacity, stackRemaining, stackSizeOf, stTail,
      MAX_STACK_SIZE, NEXT_SLIDE_BRIGHTNESS]

/-- C5 amended: the visible stack size is min(MAX_STACK_SIZE, remaining - 1)
with remaining = N - cursor, and for an idle state the zero-opacity test
(slot position stackSize - i at least remaining - 1) fires exactly at the
nearest slot i = 0 whenever remaining is at most MAX_STACK_SIZE — even when
slot 0 displays an item strictly before the last one — while every other
slot stays visible. -/
theorem stack_fade_rule (st : AppState) (i : Nat)
    (h1 : st.currentSlideIndex < st.slides.length)
    (h2 : i < stackSizeOf st) (h3 : st.isAnimating = false) :
    stackSizeOf st = min MAX_STACK_SIZE (st.slides.length - st.currentSlideIndex - 1)
    ∧ ((renderStackSlot st i).opacity = 0 ↔ stackRemaining st ≤ MAX_STACK_SIZE ∧ i = 0) := by
  refine ⟨rfl, ?_⟩
  have hKdef : stackSizeOf st = min MAX_STACK_SIZE (stackRemaining st - 1) := rfl
  have hM : MAX_STACK_SIZE = 5 := rfl
  by_cases hi : i = 0
  · subst hi
    have hop : (renderStackSlot st 0).opacity =
        stackBaseOpacity (stackRemaining st) (stackSizeOf st) 0 * NEXT_SLIDE_BRIGHTNESS := by
      simp [renderStackSlot, h3]
    rw [hop]
    unfold stackBaseOpacity
    split_ifs with hc
    · constructor
      · intro _; exact ⟨hc.1, rfl⟩
      · intro _; norm_num
    · constructor
      · intro habs
        exfalso
        revert habs
        norm_num [NEXT_SLIDE_BRIGHTNESS]
      · rintro ⟨hr5, -⟩
        exact absurd ⟨hr5, by omega⟩ hc
  · have hop : (renderStackSlot st i).opacity =
        stackBaseOpacity (stackRemaining st) (stackSizeOf st) i := by
      simp [renderStackSlot, hi]
    rw [hop]
    unfold stackBaseOpacity
    split_ifs with hc
    · exfalso
      omega
    · constructor
      · intro habs
        exact absurd habs (by norm_num)
      · rintro ⟨-, h0⟩
        exact absurd h0 hi

/-- Witness for the amended C5 at slot 0 of stTail. -/
theorem stack_fade_rule_witness :
    (stTail.currentSlideIndex < stTail.slides.length
      ∧ 0 < stackSizeOf stTail ∧ stTail.isAnimating = false)
    ∧ (stackSizeOf stTail
        = min MAX_STACK_SIZE (stTail.slides.length - stTail.currentSlideIndex - 1)
      ∧ ((renderStackSlot stTail 0).opacity = 0
          ↔ stackRemaining stTail ≤ MAX_STACK_SIZE ∧ 0 = 0)) :=
  ⟨⟨by decide, by decide, by decide⟩, stack_fade_rule stTail 0 (by decide) (by decide) (by decide)⟩

/-- C6 counterexample: for a three slide deck, a parsed record with cursor
-1 — out of the range [0, 3) — is not replaced by the fresh initial state:
loadProgress keeps the negative cursor, because the source validates only
the upper bound. -/
theorem negative_cursor_not_reset :
    loadProgress 3 (JsonCookie.record (some (-1))) = some (-1)
    ∧ loadProgress 3 (JsonCookie.record (some (-1))) ≠ some 0
    ∧ ((-1 : Int) < 0 ∨ (3 : Int) ≤ -1) := by
  decide

/-- C6 amended: loading never throws (loadProgress is total); an absent or
unparsable record yields cursor 0, and a parsed cursor is reset to 0 when it
is at least N; but a parsed cursor below N — including any negative one —
is kept as is, and a record without a numeric current field leaves the
cursor undefined, so only the upper bound of the range [0, N) is
validated. -/
theorem load_progress_validation (n : Nat) (c : Int) :
    loadProgress n JsonCookie.absent = some 0
    ∧ loadProgress n JsonCookie.unparsable = some 0
    ∧ loadProgress n (JsonCookie.record none) = none
    ∧ ((n : Int) ≤ c → loadProgress n (JsonCookie.record (some c)) = some 0)
    ∧ (c < (n : Int) → loadProgress n (JsonCookie.record (some c)) = some c) := by
  refine ⟨rfl, rfl, rfl, ?_, ?_⟩
  · intro h
    simp [loadProgress, h]
  · intro h
    simp [loadProgress, not_le.mpr h]

/-- C7: loadTexture is memoizing and idempotent: starting from a cache
without the path, the first call performs exactly one underlying
fetch-decode-upload and stores the decoded record, and the second call with
the same path returns that identical record (with its stored dimensions)
while changing nothing — in particular the fetch count stays at one across
both calls. -/
theorem loadTexture_memoizes (decode : String → TexData) (path : String) (st : TexCacheState)
    (h : st.cache.lookup path = none) :
    (loadTexture decode path st).1 = decode path
    ∧ (loadTexture decode path st).2.fetches = st.fetches + 1
    ∧ (loadTexture decode path ((loadTexture decode path st).2)).1 = (loadTexture decode path st).1
    ∧ (loadTexture decode path ((loadTexture decode path st).2)).2
        = (loadTexture decode path st).2 := by
  simp [loadTexture, h]

/-- Witness for C7 at an empty cache and a constant decode oracle. -/
theorem loadTexture_memoizes_witness :
    (TexCacheState.mk [] 0).cache.lookup "a" = none
    ∧ ((loadTexture (fun _ => TexData.mk 2 1) "a" (TexCacheState.mk [] 0)).1 = TexData.mk 2 1
      ∧ (loadTexture (fun _ => TexData.mk 2 1) "a" (TexCacheState.mk [] 0)).2.fetches = 0 + 1
      ∧ (loadTexture (fun _ => TexData.mk 2 1) "a"
          ((loadTexture (fun _ => TexData.mk 2 1) "a" (TexCacheState.mk [] 0)).2)).1
        = (loadTexture (fun _ => TexData.mk 2 1) "a" (TexCacheState.mk [] 0)).1
      ∧ (loadTexture (fun _ => TexData.mk 2 1) "a"
          ((loadTexture (fun _ => TexData.mk 2 1) "a" (TexCacheState.mk [] 0)).2)).2
        = (loadTexture (fun _ => TexData.mk 2 1) "a" (TexCacheState.mk [] 0)).2) :=
  ⟨by decide, loadTexture_memoizes (fun _ => TexData.mk 2 1) "a" (TexCacheState.mk [] 0) (by decide)⟩

/-- C8: during a throw (animating with a nonzero direction) the rendered
current slide has position direction * eased, rotation rotationDegrees *
eased and opacity exactly 1 - progress, with eased 1 - (1 - progress)^3:
the fade is linear in raw progress and independent of the eased pose. -/
theorem throwing_render_formula (st : AppState)
    (h1 : st.isAnimating = true)
    (h2 : st.throwDirection.1 ≠ 0 ∨ st.throwDirection.2 ≠ 0)
    (h3 : 0 ≤ st.animationProgress) (h4 : st.animationProgress ≤ 1) :
    renderCurrentSlide st =
      { offsetX := st.throwDirection.1 * eased st.animationProgress,
        offsetY := st.throwDirection.2 * eased st.animationProgress,
        scale := 1,
        rotation := st.throwRotation * eased st.animationProgress,
        depth := 0,
        opacity := 1 - st.animationProgress }
    ∧ eased st.animationProgress = 1 - (1 - st.animationProgress)^3 := by
  refine ⟨?_, rfl⟩
  simp [renderCurrentSlide, h1, h2]

/-- The concrete mid-throw state has a nonzero throw direction. -/
lemma stThrowHalf_direction :
    stThrowHalf.throwDirection.1 ≠ 0 ∨ stThrowHalf.throwDirection.2 ≠ 0 := by
  left
  norm_num [stThrowHalf, stThrowing, throwSlide, throwDistance,
    THROW_DISTANCE_MIN, THROW_DISTANCE_RANGE, stIdle]

/-- The concrete mid-throw state has progress at least 0. -/
lemma stThrowHalf_progress_nonneg : 0 ≤ stThrowHalf.animationProgress := by
  norm_num [stThrowHalf, stThrowing, throwSlide, stIdle]

/-- The concrete mid-throw state has progress at most 1. -/
lemma stThrowHalf_progress_le_one : stThrowHalf.animationProgress ≤ 1 := by
  norm_num [stThrowHalf, stThrowing, throwSlide, stIdle]

/-- Witness for C8 at the concrete mid-throw state with progress 1/2. -/
theorem throwing_render_formula_witness :
    (stThrowHalf.isAnimating = true
      ∧ (stThrowHalf.throwDirection.1 ≠ 0 ∨ stThrowHalf.throwDirection.2 ≠ 0)
      ∧ 0 ≤ stThrowHalf.animationProgress ∧ stThrowHalf.animationProgress ≤ 1)
    ∧ (renderCurrentSlide stThrowHalf =
        { offsetX := stThrowHalf.throwDirection.1 * eased stThrowHalf.animationProgress,
          offsetY := stThrowHalf.throwDirection.2 * eased stThrowHalf.animationProgress,
          scale := 1,
          rotation := stThrowHalf.throwRotation * eased stThrowHalf.animationProgress,
          depth := 0,
          opacity := 1 - stThrowHalf.animationProgress }
      ∧ eased stThrowHalf.animationProgress = 1 - (1 - stThrowHalf.animationProgress)^3) :=
  ⟨⟨rfl, stThrowHalf_direction, stThrowHalf_progress_nonneg, stThrowHalf_progress_le_one⟩,
    throwing_render_formula stThrowHalf rfl stThrowHalf_direction
      stThrowHalf_progress_nonneg stThrowHalf_progress_le_one⟩

/-- C10: with cos and sin of the throw angle constrained by c^2 + s^2 = 1
and the distance draw r in [0, 1), the throw direction has squared magnitude
(throwDistance r)^2, between THROW_DISTANCE_MIN^2 and 9, hence is never the
zero vector; the renderer's zero test therefore classifies the freshly
thrown state into the throw branch (opacity 1 - progress, here 1), and
stack slot 0 keeps its NextSlotPose during the throw. -/
theorem throw_direction_nonzero (c s r rot : ℚ) (st : AppState)
    (hcs : c^2 + s^2 = 1) (hr0 : 0 ≤ r) (hr1 : r < 1) :
    ((throwSlide c s r rot st).throwDirection.1)^2
        + ((throwSlide c s r rot st).throwDirection.2)^2 = (throwDistance r)^2
    ∧ THROW_DISTANCE_MIN^2 ≤ ((throwSlide c s r rot st).throwDirection.1)^2
        + ((throwSlide c s r rot st).throwDirection.2)^2
    ∧ ((throwSlide c s r rot st).throwDirection.1)^2
        + ((throwSlide c s r rot st).throwDirection.2)^2 < 9
    ∧ ((throwSlide c s r rot st).throwDirection.1 ≠ 0
        ∨ (throwSlide c s r rot st).throwDirection.2 ≠ 0)
    ∧ (renderCurrentSlide (throwSlide c s r rot st)).opacity = 1
    ∧ (renderStackSlot (throwSlide c s r rot st) 0).offsetX = st.nextSlideOffsetX := by
  have ht : THROW_DISTANCE_MIN ≤ throwDistance r := by
    unfold throwDistance THROW_DISTANCE_RANGE
    linarith
  have htpos : 0 < throwDistance r := by
    unfold throwDistance THROW_DISTANCE_MIN THROW_DISTANCE_RANGE
    linarith
  have ht3 : throwDistance r < 3 := by
    unfold throwDistance THROW_DISTANCE_MIN THROW_DISTANCE_RANGE
    linarith
  have hsum : (c * throwDistance r)^2 + (s * throwDistance r)^2 = (throwDistance r)^2 := by
    have hexp : (c * throwDistance r)^2 + (s * throwDistance r)^2
        = (c^2 + s^2) * (throwDistance r)^2 := by ring
    rw [hexp, hcs, one_mul]
  have hnz : c * throwDistance r ≠ 0 ∨ s * throwDistance r ≠ 0 := by
    by_contra hno
    push_neg at hno
    have hzero : (throwDistance r)^2 = 0 := by
      rw [← hsum, hno.1, hno.2]
      ring
    nlinarith [htpos]
  have hnzp : (throwSlide c s r rot st).throwDirection.1 ≠ 0
      ∨ (throwSlide c s r rot st).throwDirection.2 ≠ 0 := hnz
  refine ⟨hsum, ?_, ?_, hnzp, ?_, ?_⟩
  · show THROW_DISTANCE_MIN^2 ≤ (c * throwDistance r)^2 + (s * throwDistance r)^2
    rw [hsum]
    have h0min : (0:ℚ) ≤ THROW_DISTANCE_MIN := by norm_num [THROW_DISTANCE_MIN]
    exact pow_le_pow_left₀ h0min ht 2
  · show (c * throwDistance r)^2 + (s * throwDistance r)^2 < 9
    rw [hsum]
    nlinarith [htpos, ht3]
  · rw [renderCurrentSlide_throw_opacity _ rfl hnzp]
    show (1 : ℚ) - 0 = 1
    norm_num
  · have hcond : ¬((throwSlide c s r rot st).throwDirection.1 = 0
        ∧ (throwSlide c s r rot st).throwDirection.2 = 0) := by
      intro hand
      rcases hnzp with hx | hx
      · exact hx hand.1
      · exact hx hand.2
    exact renderStackSlot_zero_throw _ rfl hcond

/-- Witness for C10 at the rational point (3/5, 4/5) of the unit circle and
distance draw 0. -/
theorem throw_direction_nonzero_witness :
    ((3/5 : ℚ)^2 + (4/5 : ℚ)^2 = 1 ∧ (0 : ℚ) ≤ 0 ∧ (0 : ℚ) < 1)
    ∧ (((throwSlide (3/5) (4/5) 0 1 stIdle).throwDirection.1)^2
          + ((throwSlide (3/5) (4/5) 0 1 stIdle).throwDirection.2)^2 = (throwDistance 0)^2
      ∧ THROW_DISTANCE_MIN^2 ≤ ((throwSlide (3/5) (4/5) 0 1 stIdle).throwDirection.1)^2
          + ((throwSlide (3/5) (4/5) 0 1 stIdle).throwDirection.2)^2
      ∧ ((throwSlide (3/5) (4/5) 0 1 stIdle).throwDirection.1)^2
          + ((throwSlide (3/5) (4/5) 0 1 stIdle).throwDirection.2)^2 < 9
      ∧ ((throwSlide (3/5) (4/5) 0 1 stIdle).throwDirection.1 ≠ 0
          ∨ (throwSlide (3/5) (4/5) 0 1 stIdle).throwDirection.2 ≠ 0)
      ∧ (renderCurrentSlide (throwSlide (3/5) (4/5) 0 1 stIdle)).opacity = 1
      ∧ (renderStackSlot (throwSlide (3/5) (4/5) 0 1 stIdle) 0).offsetX
          = stIdle.nextSlideOffsetX) :=
  ⟨⟨by norm_num, by norm_num, by norm_num⟩,
    throw_direction_nonzero (3/5) (4/5) 0 1 stIdle (by norm_num) (by norm_num) (by norm_num)⟩

end Praesi
